import Mathlib

/-!
Verification development for the Mirage example-notebook repository.

The repository consists of example notebooks that call the external Mirage
simulation library (catalog generation, yaml generation, seed-image creation,
dark preparation, observation generation, slitless-spectroscopy dispersion).
The library implementation itself is not part of the repository, so every
definition below is modelled from the specification and from the contracts
documented in the notebooks, as indicated by each doc comment.
-/

namespace Mirage

/-- Modelled from the spec: a magnitude entry in a catalog column.  Extended
catalogs allow a non-number entry (written e.g. as the string none in the
notebook) meaning that no magnitude is given for that source, so a magnitude
value is an optional rational. -/
abbrev MagValue := Option ℚ

/-- Modelled from the spec: positions are entered either as RA and Dec lists or
as detector pixel x and y lists; which pair of keywords is used determines the
location units recorded in the catalog. -/
inductive PositionInput
| radec (ra dec : List ℚ)
| xy (x y : List ℚ)
deriving DecidableEq

/-- Number of sources described by a position input (one row per entry of the
primary coordinate list). -/
def PositionInput.count : PositionInput → Nat
| .radec ra _ => ra.length
| .xy x _ => x.length

/-- Location units recorded in a saved catalog, determined by which keywords
supplied the positions. -/
def PositionInput.units : PositionInput → String
| .radec _ _ => "position_RA_Dec"
| .xy _ _ => "position_pixels"

/-- The position data as named columns of the catalog table. -/
def PositionInput.columns : PositionInput → List (String × List ℚ)
| .radec ra dec => [("x_or_RA", ra), ("y_or_Dec", dec)]
| .xy x y => [("x_or_RA", x), ("y_or_Dec", y)]

/-- Modelled from the spec: velocities of moving sources are entered either as
RA and Dec velocities or as pixel x and y velocities, in arcseconds per hour or
pixels per hour respectively. -/
inductive VelocityInput
| radec (ra_velocity dec_velocity : List ℚ)
| xy (x_velocity y_velocity : List ℚ)
deriving DecidableEq

/-- Velocity units recorded in the catalog, determined by which keywords
supplied the velocities. -/
def VelocityInput.units : VelocityInput → String
| .radec _ _ => "velocity_RA_Dec"
| .xy _ _ => "velocity_pixels"

/-- The velocity data as named columns of the catalog table. -/
def VelocityInput.columns : VelocityInput → List (String × List ℚ)
| .radec rv dv => [("x_or_RA_velocity", rv), ("y_or_Dec_velocity", dv)]
| .xy xv yv => [("x_or_RA_velocity", xv), ("y_or_Dec_velocity", yv)]

/-- The kinds of source catalogs offered by the catalog generator. -/
inductive CatalogKind
| pointSource
| galaxy
| extended
| movingPointSource
| movingSersic
| movingExtended
| nonSidereal
deriving DecidableEq

/-- Modelled from the spec: a magnitude column added via add_magnitude_column.
It records the instrument and filter it belongs to, the magnitude system of its
values, and one magnitude value per source. -/
structure MagColumn where
instrument : String
filter_name : String
system : String
values : List MagValue
deriving DecidableEq

/-- The name of a magnitude column in the resulting table: the instrument and
filter are combined to create the column name. -/
def MagColumn.column_name (m : MagColumn) : String :=
m.instrument ++ "_" ++ m.filter_name ++ "_magnitude"

/-- Modelled from the spec: an in-memory source catalog, as built by the
catalog classes.  All catalog types contain an index column giving a unique
index number to each target; position (and, for the relevant kinds, shape,
velocity and filename) data are held as named columns; magnitude columns are
added one at a time via add_magnitude_column. -/
structure Catalog where
kind : CatalogKind
index_column : List Nat
location_units : String
velocity_units : Option String
radius_units : Option String
data_columns : List (String × List ℚ)
text_columns : List (String × List String)
mag_columns : List MagColumn
deriving DecidableEq

/-- Modelled from the spec: the index column produced when a catalog object is
created.  When the starting_index keyword is not provided, Mirage begins
counting at 1; otherwise the first source receives the given starting index,
and subsequent sources receive consecutive increasing integers. -/
def mkIndexes (starting_index : Option Nat) (n : Nat) : List Nat :=
List.range' (starting_index.getD 1) n

/-- Modelled from the spec: the PointSourceCatalog class.  The user provides
positions (RA, Dec or pixel x, y) and an optional starting index. -/
def PointSourceCatalog (pos : PositionInput) (starting_index : Option Nat) : Catalog :=
{ kind := .pointSource
  index_column := mkIndexes starting_index pos.count
  location_units := pos.units
  velocity_units := none
  radius_units := none
  data_columns := pos.columns
  text_columns := []
  mag_columns := [] }

/-- Modelled from the spec: the GalaxyCatalog class, a point-source-like
catalog with added columns of ellipticity, radius, sersic index and position
angle, and a radius_units keyword. -/
def GalaxyCatalog (pos : PositionInput) (ellipticity radius sersic_index position_angle : List ℚ)
    (radius_units : String) (starting_index : Option Nat) : Catalog :=
{ kind := .galaxy
  index_column := mkIndexes starting_index pos.count
  location_units := pos.units
  velocity_units := none
  radius_units := some radius_units
  data_columns := pos.columns ++
    [("ellipticity", ellipticity), ("radius", radius),
     ("sersic_index", sersic_index), ("pos_angle", position_angle)]
  text_columns := []
  mag_columns := [] }

/-- Modelled from the spec: the ExtendedCatalog class, with added columns for
stamp-image filenames and position angles. -/
def ExtendedCatalog (filenames : List String) (pos : PositionInput)
    (position_angle : List ℚ) (starting_index : Option Nat) : Catalog :=
{ kind := .extended
  index_column := mkIndexes starting_index pos.count
  location_units := pos.units
  velocity_units := none
  radius_units := none
  data_columns := pos.columns ++ [("pos_angle", position_angle)]
  text_columns := [("filename", filenames)]
  mag_columns := [] }

/-- Modelled from the spec: the MovingPointSourceCatalog class, a point source
catalog with additional velocity entries. -/
def MovingPointSourceCatalog (pos : PositionInput) (vel : VelocityInput)
    (starting_index : Option Nat) : Catalog :=
{ kind := .movingPointSource
  index_column := mkIndexes starting_index pos.count
  location_units := pos.units
  velocity_units := some vel.units
  radius_units := none
  data_columns := pos.columns ++ vel.columns
  text_columns := []
  mag_columns := [] }

/-- Modelled from the spec: the MovingSersicCatalog class, combining the
attributes of the GalaxyCatalog and MovingPointSourceCatalog classes. -/
def MovingSersicCatalog (pos : PositionInput) (vel : VelocityInput)
    (ellipticity radius sersic_index position_angle : List ℚ)
    (radius_units : String) (starting_index : Option Nat) : Catalog :=
{ kind := .movingSersic
  index_column := mkIndexes starting_index pos.count
  location_units := pos.units
  velocity_units := some vel.units
  radius_units := some radius_units
  data_columns := pos.columns ++ vel.columns ++
    [("ellipticity", ellipticity), ("radius", radius),
     ("sersic_index", sersic_index), ("pos_angle", position_angle)]
  text_columns := []
  mag_columns := [] }

/-- Modelled from the spec: the MovingExtendedCatalog class, combining the
inputs of the ExtendedCatalog and MovingPointSourceCatalog classes. -/
def MovingExtendedCatalog (pos : PositionInput) (vel : VelocityInput)
    (filenames : List String) (position_angle : List ℚ)
    (starting_index : Option Nat) : Catalog :=
{ kind := .movingExtended
  index_column := mkIndexes starting_index pos.count
  location_units := pos.units
  velocity_units := some vel.units
  radius_units := none
  data_columns := pos.columns ++ vel.columns ++ [("pos_angle", position_angle)]
  text_columns := [("filename", filenames)]
  mag_columns := [] }

/-- Modelled from the spec: the NonSiderealCatalog class, taking positions,
velocities and an object-type column. -/
def NonSiderealCatalog (pos : PositionInput) (vel : VelocityInput)
    (object_type : List String) (starting_index : Option Nat) : Catalog :=
{ kind := .nonSidereal
  index_column := mkIndexes starting_index pos.count
  location_units := pos.units
  velocity_units := some vel.units
  radius_units := none
  data_columns := pos.columns ++ vel.columns
  text_columns := [("object", object_type)]
  mag_columns := [] }

/-- Modelled from the spec: the allowed values for the magnitude system of a
magnitude column are abmag, stmag and vegamag. -/
def allowedMagnitudeSystems : List String := ["abmag", "stmag", "vegamag"]

/-- Modelled from the spec: the add_magnitude_column method.  The instrument
and filter associated with the magnitude list are supplied along with the
magnitude values; when no magnitude system is given the default abmag is used;
a magnitude system outside the allowed values is rejected, and the magnitude
columns in a given catalog must all be in the same magnitude system. -/
def add_magnitude_column (c : Catalog) (mags : List MagValue)
    (instrument : String) (filter_name : String)
    (magnitude_system : Option String) : Except String Catalog :=
if magnitude_system.getD "abmag" ∈ allowedMagnitudeSystems then
  if c.mag_columns.all (fun m => m.system = magnitude_system.getD "abmag") then
    .ok { c with mag_columns :=
            c.mag_columns ++ [⟨instrument, filter_name, magnitude_system.getD "abmag", mags⟩] }
  else .error "magnitude columns in a catalog must all use the same magnitude system"
else .error "unrecognized magnitude system"

/-- One requested call to add_magnitude_column. -/
structure MagAdd where
mags : List MagValue
instrument : String
filter_name : String
magnitude_system : Option String

/-- The magnitude-column name that an add_magnitude_column call produces. -/
def MagAdd.column_name (a : MagAdd) : String :=
a.instrument ++ "_" ++ a.filter_name ++ "_magnitude"

/-- Apply a sequence of add_magnitude_column calls to a catalog, failing if
any single call fails. -/
def addMagnitudeColumns (c : Catalog) : List MagAdd → Except String Catalog
| [] => .ok c
| a :: rest =>
  match add_magnitude_column c a.mags a.instrument a.filter_name a.magnitude_system with
  | .ok c' => addMagnitudeColumns c' rest
  | .error e => .error e

/-- Modelled from the spec: a catalog saved to a plain-text file.  The table
contains the index column, the position and shape columns, one magnitude
column per added (instrument, filter) pair; header information records the
location units and the magnitude system. -/
structure SavedTable where
index_column : List Nat
location_units : String
magnitude_system : Option String
data_columns : List (String × List ℚ)
text_columns : List (String × List String)
mag_columns : List (String × List MagValue)
deriving DecidableEq

/-- Modelled from the spec: the save method, writing the catalog table with
its index column, data columns and named magnitude columns, plus header
information on location units and magnitude system. -/
def Catalog.save (c : Catalog) : SavedTable :=
{ index_column := c.index_column
  location_units := c.location_units
  magnitude_system := c.mag_columns.head?.map (fun m => m.system)
  data_columns := c.data_columns
  text_columns := c.text_columns
  mag_columns := c.mag_columns.map (fun m => (m.column_name, m.values)) }

/-- A description of one catalog-class construction call; used to quantify
over catalogs built by any of the catalog classes. -/
inductive CatalogSpec
| point (pos : PositionInput) (starting_index : Option Nat)
| galaxy (pos : PositionInput) (ellipticity radius sersic_index position_angle : List ℚ)
    (radius_units : String) (starting_index : Option Nat)
| extended (filenames : List String) (pos : PositionInput)
    (position_angle : List ℚ) (starting_index : Option Nat)
| movingPoint (pos : PositionInput) (vel : VelocityInput) (starting_index : Option Nat)
| movingSersic (pos : PositionInput) (vel : VelocityInput)
    (ellipticity radius sersic_index position_angle : List ℚ)
    (radius_units : String) (starting_index : Option Nat)
| movingExtended (pos : PositionInput) (vel : VelocityInput)
    (filenames : List String) (position_angle : List ℚ) (starting_index : Option Nat)
| nonSidereal (pos : PositionInput) (vel : VelocityInput)
    (object_type : List String) (starting_index : Option Nat)

/-- Build the catalog described by a construction call. -/
def CatalogSpec.build : CatalogSpec → Catalog
| .point pos si => PointSourceCatalog pos si
| .galaxy pos e r s p ru si => GalaxyCatalog pos e r s p ru si
| .extended fn pos p si => ExtendedCatalog fn pos p si
| .movingPoint pos vel si => MovingPointSourceCatalog pos vel si
| .movingSersic pos vel e r s p ru si => MovingSersicCatalog pos vel e r s p ru si
| .movingExtended pos vel fn p si => MovingExtendedCatalog pos vel fn p si
| .nonSidereal pos vel ot si => NonSiderealCatalog pos vel ot si

/-- The starting_index keyword value of a construction call. -/
def CatalogSpec.starting_index : CatalogSpec → Option Nat
| .point _ si => si
| .galaxy _ _ _ _ _ _ si => si
| .extended _ _ _ si => si
| .movingPoint _ _ si => si
| .movingSersic _ _ _ _ _ _ _ si => si
| .movingExtended _ _ _ _ si => si
| .nonSidereal _ _ _ si => si

/-- The number of sources of a construction call. -/
def CatalogSpec.count : CatalogSpec → Nat
| .point pos _ => pos.count
| .galaxy pos _ _ _ _ _ _ => pos.count
| .extended _ pos _ _ => pos.count
| .movingPoint pos _ _ => pos.count
| .movingSersic pos _ _ _ _ _ _ _ => pos.count
| .movingExtended pos _ _ _ _ => pos.count
| .nonSidereal pos _ _ _ => pos.count

/-- A catalog is constructed when it is the result of one of the catalog
classes applied to some inputs. -/
def IsConstructed (c : Catalog) : Prop :=
∃ s : CatalogSpec, s.build = c

/-! ## The simulation pipeline

Modelled from the spec: the simulator is broken up into stages.  Yaml input
files are created from a proposal, one per exposure and detector; for each
yaml file a noiseless seed image is produced from the source catalogs, a dark
current exposure is prepared, and the observation generator combines the two
while adding cosmic rays, noise and other detector effects. -/

/-- A pixel image as a countrate map. -/
abbrev Image := Nat → Nat → ℚ

/-- Modelled from the spec: the per-pixel detector effects and stochastic
contributions that the observation generator adds when converting the seed
image into a final exposure (cosmic rays, Poisson noise, IPC, crosstalk,
read noise). -/
structure DetectorEffects where
cosmic_rays : Image
poisson_noise : Image
ipc_crosstalk : Image
readnoise : Image

/-- Modelled from the spec: a dark current exposure used as the baseline of
the simulated data. -/
structure DarkExposure where
data : Image

/-- Modelled from the spec: a yaml input file.  Each yaml file specifies
exposure details for a single exposure in a single detector: instrument
set-up, the source catalogs to use, the readout parameters, the sky
background and the dark reference. -/
structure YamlFile where
exposure_id : Nat
detector : String
instrument : String
catalogs : List Catalog
readout_pattern : String
background : Image
dark : DarkExposure

/-- Modelled from the spec: a proposal exported from APT together with the
user-supplied configuration, from which the yaml generator builds its input
files.  The exposures and the detectors of the instrument determine which
yaml files are produced. -/
structure Proposal where
exposure_ids : List Nat
detectors : List String
instrument : String
catalogs : List Catalog
readout_pattern : String
background : Image
dark : DarkExposure

/-- Modelled from the spec: SimInput.create_inputs, the yaml generator.  One
yaml file is created for each exposure and detector of the proposal. -/
def SimInput_create_inputs (p : Proposal) : List YamlFile :=
p.exposure_ids.flatMap (fun e =>
  p.detectors.map (fun d =>
    { exposure_id := e
      detector := d
      instrument := p.instrument
      catalogs := p.catalogs
      readout_pattern := p.readout_pattern
      background := p.background
      dark := p.dark }))

/-- An abstract renderer turning one catalog into its astronomical countrate
signal on the detector.  The rendering algorithms of the external library are
opaque in this material, so the pipeline is parametrised by the renderer. -/
abbrev Renderer := Catalog → Image

/-- Modelled from the spec: the astronomical scene signal of a yaml file, the
summed countrate signal of all its source catalogs plus the sky background. -/
def astronomicalSignal (render : Renderer) (y : YamlFile) : Image :=
fun i j => (y.catalogs.map (fun c => render c i j)).sum + y.background i j

/-- Modelled from the spec: a noiseless seed image, the intermediate product
containing signal only from the astronomical sources and background, together
with its segmentation map populated from the source index numbers. -/
structure SeedImage where
data : Image
segmap_indexes : List Nat

/-- Modelled from the spec: Catalog_seed.make_seed.  Mirage requires that each
target across all input catalogs has a unique source index (these index
numbers populate the segmentation map); if two input catalogs assign the same
index value to different sources an exception is raised.  Otherwise the
noiseless seed image is produced from the catalogs and background alone. -/
def Catalog_seed_make_seed (render : Renderer) (y : YamlFile) : Except String SeedImage :=
if (y.catalogs.flatMap Catalog.index_column).Nodup then
  .ok { data := astronomicalSignal render y
        segmap_indexes := y.catalogs.flatMap Catalog.index_column }
else
  .error "source index numbers must be unique across all input catalogs"

/-- Modelled from the spec: a dark current exposure linearized and
reorganized into the requested readout pattern. -/
structure PreparedDark where
data : Image
readout_pattern : String

/-- Modelled from the spec: DarkPrep.prepare, converting the dark current
exposure to the readout pattern requested in the yaml file. -/
def DarkPrep_prepare (y : YamlFile) : PreparedDark :=
{ data := y.dark.data, readout_pattern := y.readout_pattern }

/-- Modelled from the spec: the final simulated exposure for one exposure on
one detector. -/
structure FinalExposure where
exposure_id : Nat
detector : String
data : Image

/-- Modelled from the spec: Observation.create, combining the seed image with
the prepared dark while adding cosmic rays, Poisson noise and other detector
effects to produce the final exposure of the yaml file. -/
def Observation_create (seed : SeedImage) (dark : PreparedDark)
    (fx : DetectorEffects) (y : YamlFile) : FinalExposure :=
{ exposure_id := y.exposure_id
  detector := y.detector
  data := fun i j =>
    seed.data i j + dark.data i j + fx.cosmic_rays i j +
      fx.poisson_noise i j + fx.ipc_crosstalk i j + fx.readnoise i j }

/-- The pipeline stages named by the notebooks. -/
inductive Stage
| makeCatalogs
| createInputs
| makeSeed
| darkPrep
| obsCreate
deriving DecidableEq

/-- The result of simulating one yaml file, with the intermediate seed image,
the final exposure, and the trace of the stages that produced it. -/
structure SimOutput where
seedimage : Image
segmap_indexes : List Nat
final : FinalExposure
trace : List Stage

/-- Modelled from the spec: simulating a single yaml file, running the seed
image, dark preparation and observation generation stages in order and
recording each stage as it runs. -/
def simulateExposure (render : Renderer) (fx : DetectorEffects)
    (y : YamlFile) : Except String SimOutput :=
match Catalog_seed_make_seed render y with
| .error e => .error e
| .ok seed =>
  let t1 := [Stage.makeSeed]
  let dark := DarkPrep_prepare y
  let t2 := t1 ++ [Stage.darkPrep]
  let obs := Observation_create seed dark fx y
  let t3 := t2 ++ [Stage.obsCreate]
  .ok { seedimage := seed.data
        segmap_indexes := seed.segmap_indexes
        final := obs
        trace := t3 }

/-- The user-supplied inputs of a whole simulation workflow: the catalog
construction calls and the proposal-level configuration. -/
structure WorkflowInput where
catalog_specs : List CatalogSpec
exposure_ids : List Nat
detectors : List String
instrument : String
readout_pattern : String
background : Image
dark : DarkExposure

/-- Modelled from the spec: the catalog generation stage, building one
catalog per construction call. -/
def generateCatalogs (specs : List CatalogSpec) : List Catalog :=
specs.map CatalogSpec.build

/-- Run a fallible step on every element of a list, stopping at the first
failure. -/
def mapExcept (f : α → Except String β) : List α → Except String (List β)
| [] => .ok []
| a :: l =>
  match f a with
  | .error e => .error e
  | .ok b => (mapExcept f l).map (fun bs => b :: bs)

/-- The proposal assembled from the workflow inputs and the generated
catalogs; this is what the yaml generator consumes. -/
def WorkflowInput.proposal (w : WorkflowInput) : Proposal :=
{ exposure_ids := w.exposure_ids
  detectors := w.detectors
  instrument := w.instrument
  catalogs := generateCatalogs w.catalog_specs
  readout_pattern := w.readout_pattern
  background := w.background
  dark := w.dark }

/-- Modelled from the spec: the whole workflow demonstrated by the notebooks:
generate the source catalogs, build the per-exposure yaml files with the yaml
generator, then run the seed image, dark preparation and observation
generation stages for each yaml file.  The catalog-generation and
yaml-generation stages are recorded at the head of each exposure trace, ahead
of the per-exposure stages recorded by simulateExposure. -/
def runWorkflow (render : Renderer) (fx : DetectorEffects)
    (w : WorkflowInput) : Except String (List SimOutput) :=
(mapExcept (simulateExposure render fx) (SimInput_create_inputs w.proposal)).map
  (fun outs => outs.map
    (fun o => { o with trace := [Stage.makeCatalogs, Stage.createInputs] ++ o.trace }))

/-! ## Spectral-energy-distribution files and the disperser -/

/-- Modelled from the spec: a spectral-energy-distribution curve of one
source, a set of wavelengths together with flux densities. -/
structure SEDCurve where
wavelengths : List ℚ
fluxes : List ℚ
deriving DecidableEq

/-- Modelled from the spec: the optional hierarchical binary (hdf5) SED
container.  It holds one dataset per source; each dataset is keyed by the
source index number the source has in the plain-text catalogs. -/
abbrev SEDFile := List (Nat × SEDCurve)

/-- Look up the SED dataset whose key is the given source index number. -/
def sedForIndex (sed_file : SEDFile) (k : Nat) : Option SEDCurve :=
(sed_file.find? (fun e => e.fst == k)).map Prod.snd

/-- Modelled from the spec: the disperser pairing each catalog source with
the SED dataset whose key equals that source's index number, producing the
spectrum assignment used to build the dispersed seed image. -/
def disperseSources (sed_file : SEDFile) (c : Catalog) : List (Nat × Option SEDCurve) :=
c.index_column.map (fun k => (k, sedForIndex sed_file k))

/-! ## Running multiple simulations -/

/-- Modelled from the spec: the output filename of the exposure simulated
from one yaml file, derived from the exposure identifiers in that file. -/
def outputName (y : YamlFile) : String :=
"jw" ++ toString y.exposure_id ++ "_" ++ y.detector ++ "_uncal.fits"

/-- The observable result of a batch of simulation runs: the contents of the
output directory, one final exposure per written file. -/
abbrev FileSystem := String → Option FinalExposure

/-- Modelled from the spec: one simulation run.  It consumes one yaml
configuration file and writes its own output file; it reads no state written
by other runs. -/
def runOne (render : Renderer) (fx : DetectorEffects)
    (fs : FileSystem) (y : YamlFile) : FileSystem :=
match simulateExposure render fx y with
| .ok s => fun name => if name = outputName y then some s.final else fs name
| .error _ => fs

/-- Modelled from the spec: running a batch of simulations in series, one
yaml file after another. -/
def runSeries (render : Renderer) (fx : DetectorEffects)
    (fs : FileSystem) (ys : List YamlFile) : FileSystem :=
ys.foldl (runOne render fx) fs

/-! ## Sample inputs used to evaluate the development on concrete data -/

/-- A blank countrate image. -/
def zeroImage : Image := fun _ _ => 0

/-- A trivial renderer used for concrete evaluation. -/
def sampleRender : Renderer := fun _ => zeroImage

/-- Trivial detector effects used for concrete evaluation. -/
def sampleFx : DetectorEffects :=
{ cosmic_rays := zeroImage
  poisson_noise := zeroImage
  ipc_crosstalk := zeroImage
  readnoise := zeroImage }

/-- A trivial dark exposure used for concrete evaluation. -/
def sampleDark : DarkExposure := { data := zeroImage }

/-- A concrete yaml file used for concrete evaluation. -/
def sampleYaml (e : Nat) (d : String) (cats : List Catalog) : YamlFile :=
{ exposure_id := e
  detector := d
  instrument := "nircam"
  catalogs := cats
  readout_pattern := "RAPID"
  background := zeroImage
  dark := sampleDark }

/-! ## Helper lemmas -/

theorem mkIndexes_nodup (si : Option Nat) (n : Nat) : (mkIndexes si n).Nodup :=
List.nodup_range' _ n

theorem mkIndexes_length (si : Option Nat) (n : Nat) : (mkIndexes si n).length =
    n := by
simp [mkIndexes]

/-- Every catalog class creates the index column from the starting index and
the source count. -/
theorem CatalogSpec.build_index_column (s : CatalogSpec) :
    s.build.index_column = mkIndexes s.starting_index s.count := by
cases s <;> rfl

/-- Every catalog class creates the catalog with no magnitude columns. -/
theorem CatalogSpec.build_mag_columns (s : CatalogSpec) :
    s.build.mag_columns = [] := by
cases s <;> rfl

/-- Description of a successful add_magnitude_column call. -/
theorem add_magnitude_column_ok {c : Catalog} {mags : List MagValue}
    {instr filt : String} {ms : Option String} {c' : Catalog}
    (h : add_magnitude_column c mags instr filt ms = .ok c') :
    c'.index_column = c.index_column ∧
    c'.mag_columns = c.mag_columns ++ [⟨instr, filt, ms.getD "abmag", mags⟩] := by
unfold add_magnitude_column at h
split at h
· split at h
  · cases h
    exact ⟨rfl, rfl⟩
  · cases h
· cases h

/-- A successful add_magnitude_column call requires the magnitude system to
be allowed and to agree with every existing magnitude column. -/
theorem add_magnitude_column_ok_conditions {c : Catalog} {mags : List MagValue}
    {instr filt : String} {ms : Option String} {c' : Catalog}
    (h : add_magnitude_column c mags instr filt ms = .ok c') :
    ms.getD "abmag" ∈ allowedMagnitudeSystems ∧
    ∀ m ∈ c.mag_columns, m.system = ms.getD "abmag" := by
unfold add_magnitude_column at h
split at h
· split at h
  · next hall => exact ⟨by assumption, by simpa [List.all_eq_true] using hall⟩
  · cases h
· cases h

/-- When the system is allowed and agrees with the existing columns the
add_magnitude_column call succeeds. -/
theorem add_magnitude_column_succeeds {c : Catalog} {mags : List MagValue}
    {instr filt : String} {ms : Option String}
    (h₁ : ms.getD "abmag" ∈ allowedMagnitudeSystems)
    (h₂ : ∀ m ∈ c.mag_columns, m.system = ms.getD "abmag") :
    ∃ c', add_magnitude_column c mags instr filt ms = .ok c' := by
unfold add_magnitude_column
rw [if_pos h₁, if_pos (by simpa [List.all_eq_true] using h₂)]
exact ⟨_, rfl⟩

/-- Description of a successful sequence of add_magnitude_column calls. -/
theorem addMagnitudeColumns_ok {adds : List MagAdd} {c c' : Catalog}
    (h : addMagnitudeColumns c adds = .ok c') :
    c'.index_column = c.index_column ∧
    c'.mag_columns.map MagColumn.column_name =
      c.mag_columns.map MagColumn.column_name ++ adds.map MagAdd.column_name := by
induction adds generalizing c with
| nil =>
  cases h
  simp
| cons a rest ih =>
  unfold addMagnitudeColumns at h
  split at h
  · next c₁ hstep =>
    obtain ⟨hix, hmc⟩ := add_magnitude_column_ok hstep
    obtain ⟨hix', hmc'⟩ := ih h
    refine ⟨hix'.trans hix, ?_⟩
    rw [hmc', hmc]
    simp [MagAdd.column_name, MagColumn.column_name]
  · cases h

/-- All magnitude columns of the result of a successful add_magnitude_column
call share the system of the added column. -/
theorem add_magnitude_column_all_system {c : Catalog} {mags : List MagValue}
    {instr filt : String} {ms : Option String} {c' : Catalog}
    (h : add_magnitude_column c mags instr filt ms = .ok c') :
    ∀ m ∈ c'.mag_columns, m.system = ms.getD "abmag" := by
obtain ⟨-, hmc⟩ := add_magnitude_column_ok h
obtain ⟨-, hall⟩ := add_magnitude_column_ok_conditions h
intro m hm
rw [hmc] at hm
rcases List.mem_append.mp hm with hm' | hm'
· exact hall m hm'
· rcases List.mem_singleton.mp hm' with rfl
  rfl

/-- The magnitude columns of a catalog reached by successful
add_magnitude_column calls from a catalog whose columns all share one system
again all share one system. -/
theorem addMagnitudeColumns_same_system {adds : List MagAdd} {c c' : Catalog}
    (hc : ∀ m₁ ∈ c.mag_columns, ∀ m₂ ∈ c.mag_columns, m₁.system = m₂.system)
    (h : addMagnitudeColumns c adds = .ok c') :
    ∀ m₁ ∈ c'.mag_columns, ∀ m₂ ∈ c'.mag_columns, m₁.system = m₂.system := by
induction adds generalizing c with
| nil =>
  cases h
  exact hc
| cons a rest ih =>
  unfold addMagnitudeColumns at h
  split at h
  · next c₁ hstep =>
    refine ih (fun m₁ h₁ m₂ h₂ => ?_) h
    rw [add_magnitude_column_all_system hstep m₁ h₁,
        add_magnitude_column_all_system hstep m₂ h₂]
  · cases h

/-- The seed image generator succeeds exactly when the source indexes are
unique across all input catalogs. -/
theorem Catalog_seed_make_seed_ok_iff (render : Renderer) (y : YamlFile) :
    (∃ seed, Catalog_seed_make_seed render y = .ok seed) ↔
      (y.catalogs.flatMap Catalog.index_column).Nodup := by
by_cases h : (y.catalogs.flatMap Catalog.index_column).Nodup
· simp [Catalog_seed_make_seed, h]
· simp [Catalog_seed_make_seed, h]

/-- Description of a successful single-yaml simulation. -/
theorem simulateExposure_ok {render : Renderer} {fx : DetectorEffects}
    {y : YamlFile} {s : SimOutput}
    (h : simulateExposure render fx y = .ok s) :
    s.seedimage = astronomicalSignal render y ∧
    s.final.exposure_id = y.exposure_id ∧
    s.final.detector = y.detector ∧
    s.trace = [Stage.makeSeed, Stage.darkPrep, Stage.obsCreate] := by
unfold simulateExposure at h
split at h
· cases h
· next seed hseed =>
  cases h
  unfold Catalog_seed_make_seed at hseed
  split at hseed
  · cases hseed
    exact ⟨rfl, rfl, rfl, rfl⟩
  · cases hseed

/-- A single-yaml simulation succeeds exactly when its seed-image stage
does. -/
theorem simulateExposure_ok_iff (render : Renderer) (fx : DetectorEffects)
    (y : YamlFile) :
    (∃ s, simulateExposure render fx y = .ok s) ↔
      (y.catalogs.flatMap Catalog.index_column).Nodup := by
rw [← Catalog_seed_make_seed_ok_iff render y]
unfold simulateExposure
constructor
· rintro ⟨s, hs⟩
  split at hs
  · cases hs
  · next seed hseed => exact ⟨seed, hseed⟩
· rintro ⟨seed, hseed⟩
  rw [hseed]
  exact ⟨_, rfl⟩

/-- A single-yaml simulation fails exactly when a source index is repeated
across the input catalogs. -/
theorem simulateExposure_error_of_not_nodup {render : Renderer}
    {fx : DetectorEffects} {y : YamlFile}
    (h : ¬ (y.catalogs.flatMap Catalog.index_column).Nodup) :
    ∃ msg, simulateExposure render fx y = .error msg := by
unfold simulateExposure Catalog_seed_make_seed
rw [if_neg h]
exact ⟨_, rfl⟩

/-- Membership description of mapExcept. -/
theorem mapExcept_ok_mem {f : α → Except String β} :
    ∀ {l : List α} {bs : List β}, mapExcept f l = .ok bs →
      ∀ b ∈ bs, ∃ a ∈ l, f a = .ok b := by
intro l
induction l with
| nil =>
  intro bs h b hb
  cases h
  cases hb
| cons a l ih =>
  intro bs h b hb
  unfold mapExcept at h
  split at h
  · cases h
  · next b₀ hfa =>
    cases hrest : mapExcept f l with
    | error e =>
      rw [hrest] at h
      cases h
    | ok bs₀ =>
      rw [hrest] at h
      cases h
      rcases List.mem_cons.mp hb with rfl | hb'
      · exact ⟨a, List.mem_cons_self a l, hfa⟩
      · obtain ⟨a', ha', hfa'⟩ := ih hrest b hb'
        exact ⟨a', List.mem_cons_of_mem a ha', hfa'⟩

/-- A run leaves every file other than its own output untouched. -/
theorem runOne_ne {render : Renderer} {fx : DetectorEffects}
    {fs : FileSystem} {y : YamlFile} {name : String}
    (h : name ≠ outputName y) :
    runOne render fx fs y name = fs name := by
unfold runOne
cases hs : simulateExposure render fx y with
| ok s => simp [h]
| error e => rfl

/-- Two runs with distinct output files commute. -/
theorem runOne_comm {render : Renderer} {fx : DetectorEffects}
    (x y : YamlFile) (h : outputName x ≠ outputName y) (fs : FileSystem) :
    runOne render fx (runOne render fx fs x) y =
      runOne render fx (runOne render fx fs y) x := by
cases hsx : simulateExposure render fx x with
| error e =>
  cases hsy : simulateExposure render fx y with
  | error e' => simp [runOne, hsx, hsy]
  | ok sy => simp [runOne, hsx, hsy]
| ok sx =>
  cases hsy : simulateExposure render fx y with
  | error e' => simp [runOne, hsx, hsy]
  | ok sy =>
    funext name
    simp only [runOne, hsx, hsy]
    by_cases hy : name = outputName y
    · have hx : name ≠ outputName x := fun hcontra => h (hcontra.symm.trans hy)
      rw [if_pos hy, if_neg hx, if_pos hy]
    · rw [if_neg hy]
      by_cases hx : name = outputName x
      · rw [if_pos hx, if_pos hx]
      · rw [if_neg hx, if_neg hx, if_neg hy]

/-- Running a batch leaves a file written by none of the runs untouched. -/
theorem runSeries_unwritten {render : Renderer} {fx : DetectorEffects}
    {ys : List YamlFile} {name : String} (fs : FileSystem)
    (h : name ∉ ys.map outputName) :
    runSeries render fx fs ys name = fs name := by
induction ys generalizing fs with
| nil => rfl
| cons a l ih =>
  have h1 : name ≠ outputName a := fun e => h (by simp [e])
  have h2 : name ∉ l.map outputName := fun e => h (by simp [e])
  have e1 : runSeries render fx fs (a :: l) =
      runSeries render fx (runOne render fx fs a) l := rfl
  rw [e1, ih (runOne render fx fs a) h2, runOne_ne h1]

/-- Series execution is invariant under the order of the runs, provided the
runs write distinct output files. -/
theorem runSeries_perm (render : Renderer) (fx : DetectorEffects)
    {ys ys' : List YamlFile} (hp : ys.Perm ys') :
    (ys.map outputName).Nodup →
      ∀ fs : FileSystem, runSeries render fx fs ys = runSeries render fx fs ys' := by
induction hp with
| nil =>
  intro _ _
  rfl
| cons x p ih =>
  intro hnd fs
  rw [List.map_cons] at hnd
  exact ih (List.nodup_cons.mp hnd).2 (runOne render fx fs x)
| swap x y l =>
  intro hnd fs
  rw [List.map_cons, List.map_cons] at hnd
  have hne : outputName y ≠ outputName x :=
    fun e => ((List.nodup_cons.mp hnd).1) (by simp [e])
  have e1 : runSeries render fx fs (y :: x :: l) =
      runSeries render fx (runOne render fx (runOne render fx fs y) x) l := rfl
  have e2 : runSeries render fx fs (x :: y :: l) =
      runSeries render fx (runOne render fx (runOne render fx fs x) y) l := rfl
  rw [e1, e2, runOne_comm y x hne fs]
| trans p₁ p₂ ih₁ ih₂ =>
  intro hnd fs
  exact (ih₁ hnd fs).trans (ih₂ ((p₁.map outputName).nodup_iff.mp hnd) fs)

/-- Each run's output file holds exactly its own simulation result. -/
theorem runSeries_output {render : Renderer} {fx : DetectorEffects}
    {ys : List YamlFile} {y : YamlFile} {s : SimOutput} (fs : FileSystem)
    (hnd : (ys.map outputName).Nodup) (hy : y ∈ ys)
    (hs : simulateExposure render fx y = .ok s) :
    runSeries render fx fs ys (outputName y) = some s.final := by
induction ys generalizing fs with
| nil => cases hy
| cons a l ih =>
  rw [List.map_cons] at hnd
  rcases List.mem_cons.mp hy with rfl | hy'
  · have hnotin : outputName y ∉ l.map outputName :=
      (List.nodup_cons.mp hnd).1
    have e1 : runSeries render fx fs (y :: l) =
        runSeries render fx (runOne render fx fs y) l := rfl
    rw [e1, runSeries_unwritten _ hnotin]
    simp [runOne, hs]
  · exact ih (runOne render fx fs a) (List.nodup_cons.mp hnd).2 hy'

/-- With unique dataset keys, the dataset looked up for an index is the one
stored under that index. -/
theorem sedForIndex_eq {sed_file : SEDFile} {k : Nat} {sed : SEDCurve}
    (hnd : (sed_file.map Prod.fst).Nodup) (hmem : (k, sed) ∈ sed_file) :
    sedForIndex sed_file k = some sed := by
induction sed_file with
| nil => cases hmem
| cons e l ih =>
  obtain ⟨k', s'⟩ := e
  rcases List.mem_cons.mp hmem with heq | hmem'
  · cases heq
    simp [sedForIndex]
  · rw [List.map_cons] at hnd
    have hhead := (List.nodup_cons.mp hnd).1
    have htail := (List.nodup_cons.mp hnd).2
    have hk : (k' == k) = false := by
      refine beq_eq_false_iff_ne.mpr ?_
      rintro rfl
      exact hhead (List.mem_map.mpr ⟨(k', sed), hmem', rfl⟩)
    have e1 : sedForIndex ((k', s') :: l) k = sedForIndex l k := by
      simp [sedForIndex, List.find?_cons, hk]
    rw [e1]
    exact ih htail hmem'

/-- Index-set disjointness of concrete lists is checkable by evaluation. -/
instance decidableListDisjoint (l₁ l₂ : List Nat) : Decidable (l₁.Disjoint l₂) :=
decidable_of_iff (∀ a ∈ l₁, a ∉ l₂) Iff.rfl

/-- Entries of a freshly created index column. -/
theorem mkIndexes_get (si : Option Nat) (n i : Nat)
    (h : i < (mkIndexes si n).length) :
    (mkIndexes si n).get ⟨i, h⟩ = si.getD 1 + i := by
rw [List.get_eq_getElem]
exact List.getElem_range'_1 i h

/-- Entries of the index column of a catalog built by any catalog class. -/
theorem CatalogSpec.build_get (s : CatalogSpec) (i : Nat)
    (h : i < s.build.index_column.length) :
    s.build.index_column.get ⟨i, h⟩ = s.starting_index.getD 1 + i := by
have e := CatalogSpec.build_index_column s
rw [List.get_of_eq e ⟨i, h⟩]
exact mkIndexes_get _ _ _ _

/-! ## The claims -/

/-- C1: for every pair of input source catalogs supplied to a single
simulation, if the two catalogs assign the same source-index value to
different sources, the system raises an error (an exception) when the
catalogs are used together. -/
theorem duplicate_source_index_raises_error (render : Renderer)
    (fx : DetectorEffects) (y : YamlFile) (c₁ c₂ : Catalog)
    (hc : y.catalogs = [c₁, c₂]) (k : Nat)
    (h₁ : k ∈ c₁.index_column) (h₂ : k ∈ c₂.index_column) :
    ∃ msg, simulateExposure render fx y = .error msg := by
refine simulateExposure_error_of_not_nodup ?_
rw [hc]
intro hnd
simp only [List.flatMap_cons, List.flatMap_nil, List.append_nil] at hnd
exact (List.disjoint_of_nodup_append hnd) h₁ h₂

theorem duplicate_source_index_raises_error_witness :
    2 ∈ (PointSourceCatalog (.radec [0, 0] [0, 0]) none).index_column ∧
    2 ∈ (GalaxyCatalog (.radec [0] [0]) [0] [0] [0] [0] "arcsec" (some 2)).index_column ∧
    ∃ msg, simulateExposure sampleRender sampleFx
      (sampleYaml 1 "nrcb5"
        [PointSourceCatalog (.radec [0, 0] [0, 0]) none,
         GalaxyCatalog (.radec [0] [0]) [0] [0] [0] [0] "arcsec" (some 2)]) = .error msg :=
⟨by decide, by decide,
 duplicate_source_index_raises_error sampleRender sampleFx _ _ _ rfl 2
   (by decide) (by decide)⟩

/-- C3: non-contiguous (gapped) source index numbers are accepted: the
simulation of a pair of catalogs succeeds exactly when the catalogs' index
columns are duplicate-free and share no index value; no contiguity of the
index values is required, and the duplicate-index error is raised only when
an index value is shared. -/
theorem gapped_source_indexes_accepted (render : Renderer)
    (fx : DetectorEffects) (y : YamlFile) (c₁ c₂ : Catalog)
    (hc : y.catalogs = [c₁, c₂]) :
    (∃ s, simulateExposure render fx y = .ok s) ↔
      (c₁.index_column.Nodup ∧ c₂.index_column.Nodup ∧
        c₁.index_column.Disjoint c₂.index_column) := by
rw [simulateExposure_ok_iff, hc]
simp only [List.flatMap_cons, List.flatMap_nil, List.append_nil]
exact List.nodup_append

theorem gapped_source_indexes_accepted_witness :
    ∃ s, simulateExposure sampleRender sampleFx
      (sampleYaml 1 "nrca1"
        [PointSourceCatalog (.radec [0, 0, 0, 0, 0, 0, 0, 0, 0, 0] [0, 0, 0, 0, 0, 0, 0, 0, 0, 0]) none,
         GalaxyCatalog (.radec [0, 0] [0, 0]) [0, 0] [0, 0] [0, 0] [0, 0] "arcsec" (some 15)]) = .ok s :=
(gapped_source_indexes_accepted sampleRender sampleFx _ _ _ rfl).mpr
  ⟨by decide, by decide, by decide⟩

/-- C9: for every catalog object created without the starting_index keyword,
the index column begins counting at 1; when starting_index is given as n, the
first source receives index n and subsequent sources receive consecutive
increasing integers (entry i of the index column is n + i). -/
theorem starting_index_controls_indexes (s : CatalogSpec) :
    (s.starting_index = none →
      ∀ i (h : i < s.build.index_column.length),
        s.build.index_column.get ⟨i, h⟩ = 1 + i) ∧
    (∀ n, s.starting_index = some n →
      ∀ i (h : i < s.build.index_column.length),
        s.build.index_column.get ⟨i, h⟩ = n + i) := by
constructor
· intro hnone i h
  rw [CatalogSpec.build_get, hnone]
  rfl
· intro n hn i h
  rw [CatalogSpec.build_get, hn]
  rfl

theorem starting_index_controls_indexes_witness :
    ((CatalogSpec.point (.radec [0, 0, 0] [0, 0, 0]) (some 5)).build.index_column.get
      ⟨2, by decide⟩ = 5 + 2) ∧
    ((CatalogSpec.point (.radec [0, 0] [0, 0]) none).build.index_column.get
      ⟨1, by decide⟩ = 1 + 1) :=
⟨(starting_index_controls_indexes (CatalogSpec.point (.radec [0, 0, 0] [0, 0, 0]) (some 5))).2
    5 rfl 2 (by decide),
 (starting_index_controls_indexes (CatalogSpec.point (.radec [0, 0] [0, 0]) none)).1
    rfl 1 (by decide)⟩

/-- C2: for every catalog built by any of the catalog classes and saved to a
plain-text file, the resulting table contains an integer index column whose
values are unique within the catalog, with one entry per source, plus one
magnitude column per (instrument, filter) pair added via
add_magnitude_column. -/
theorem saved_catalog_table_contract (s : CatalogSpec) (adds : List MagAdd)
    (c : Catalog) (h : addMagnitudeColumns s.build adds = .ok c) :
    (Catalog.save c).index_column.Nodup ∧
    (Catalog.save c).index_column.length = s.count ∧
    (Catalog.save c).mag_columns.map Prod.fst = adds.map MagAdd.column_name := by
obtain ⟨hix, hmc⟩ := addMagnitudeColumns_ok h
have e : c.index_column = mkIndexes s.starting_index s.count := by
  rw [hix, CatalogSpec.build_index_column]
refine ⟨?_, ?_, ?_⟩
· show c.index_column.Nodup
  rw [e]
  exact mkIndexes_nodup _ _
· show c.index_column.length = s.count
  rw [e]
  exact mkIndexes_length _ _
· have h2 : (Catalog.save c).mag_columns.map Prod.fst =
      c.mag_columns.map MagColumn.column_name := by
    simp [Catalog.save, List.map_map, Function.comp]
  rw [h2, hmc, CatalogSpec.build_mag_columns]
  simp

theorem saved_catalog_table_contract_witness :
    ∃ c, addMagnitudeColumns (CatalogSpec.point (.radec [0, 0] [0, 0]) none).build
      [⟨[some 17, some 18], "nircam", "f090w", some "abmag"⟩,
       ⟨[some 17, some 18], "niriss", "f200w", none⟩] = .ok c ∧
      (Catalog.save c).index_column.Nodup ∧
      (Catalog.save c).index_column.length = 2 ∧
      (Catalog.save c).mag_columns.map Prod.fst =
        ["nircam_f090w_magnitude", "niriss_f200w_magnitude"] := by
refine ⟨_, rfl, ?_⟩
have h := saved_catalog_table_contract (CatalogSpec.point (.radec [0, 0] [0, 0]) none)
  [⟨[some 17, some 18], "nircam", "f090w", some "abmag"⟩,
   ⟨[some 17, some 18], "niriss", "f200w", none⟩] _ rfl
refine ⟨h.1, h.2.1, ?_⟩
rw [h.2.2]
rfl

/-- C10: for every call to add_magnitude_column, the accepted
magnitude_system values are exactly abmag, stmag and vegamag (acceptance also
requires agreement with the already-present columns); when no
magnitude_system is given the default abmag is used; and all magnitude
columns of one catalog built by the catalog classes are in the same
magnitude system. -/
theorem magnitude_system_policy :
    (∀ (c : Catalog) (mags : List MagValue) (instr filt sys : String),
      (∃ c', add_magnitude_column c mags instr filt (some sys) = .ok c') ↔
        (sys ∈ ["abmag", "stmag", "vegamag"] ∧ ∀ m ∈ c.mag_columns, m.system = sys)) ∧
    (∀ (c : Catalog) (mags : List MagValue) (instr filt : String),
      add_magnitude_column c mags instr filt none =
        add_magnitude_column c mags instr filt (some "abmag")) ∧
    (∀ (s : CatalogSpec) (adds : List MagAdd) (c : Catalog),
      addMagnitudeColumns s.build adds = .ok c →
        ∀ m₁ ∈ c.mag_columns, ∀ m₂ ∈ c.mag_columns, m₁.system = m₂.system) := by
refine ⟨?_, ?_, ?_⟩
· intro c mags instr filt sys
  constructor
  · rintro ⟨c', hc'⟩
    have h1 := add_magnitude_column_ok_conditions hc'
    simpa [allowedMagnitudeSystems] using h1
  · rintro ⟨hmem, hall⟩
    exact add_magnitude_column_succeeds (by simpa [allowedMagnitudeSystems] using hmem)
      (by simpa using hall)
· intro c mags instr filt
  rfl
· intro s adds c h
  refine addMagnitudeColumns_same_system ?_ h
  rw [CatalogSpec.build_mag_columns]
  intro m₁ h₁
  cases h₁

theorem magnitude_system_policy_witness :
    (∃ c', add_magnitude_column (PointSourceCatalog (.radec [0] [0]) none)
      [some 15] "nircam" "f444w" (some "stmag") = .ok c') ∧
    add_magnitude_column (PointSourceCatalog (.radec [0] [0]) none)
      [some 15] "nircam" "f444w" none =
      add_magnitude_column (PointSourceCatalog (.radec [0] [0]) none)
      [some 15] "nircam" "f444w" (some "abmag") := by
constructor
· refine (magnitude_system_policy.1 _ _ _ _ _).mpr ⟨by decide, ?_⟩
  intro m hm
  cases hm
· exact magnitude_system_policy.2.1 _ _ _ _

/-- C4: for every simulation, the seed image produced as an intermediate
product is a noiseless count-rate image containing only modeled astronomical
signal: it equals the astronomical signal of the catalogs and background, and
it is unchanged under any choice of detector effects, cosmic rays and noise
contributions. -/
theorem seed_image_noiseless (render : Renderer) (fx : DetectorEffects)
    (y : YamlFile) (s : SimOutput) (h : simulateExposure render fx y = .ok s) :
    s.seedimage = astronomicalSignal render y ∧
    ∀ fx' : DetectorEffects, ∃ s', simulateExposure render fx' y = .ok s' ∧
      s'.seedimage = s.seedimage := by
refine ⟨(simulateExposure_ok h).1, ?_⟩
intro fx'
have hnd : (y.catalogs.flatMap Catalog.index_column).Nodup :=
  (simulateExposure_ok_iff render fx y).mp ⟨s, h⟩
obtain ⟨s', hs'⟩ := (simulateExposure_ok_iff render fx' y).mpr hnd
exact ⟨s', hs', ((simulateExposure_ok hs').1).trans ((simulateExposure_ok h).1).symm⟩

theorem seed_image_noiseless_witness :
    ∃ s, simulateExposure sampleRender sampleFx
      (sampleYaml 1 "nrcb5" [PointSourceCatalog (.radec [0] [0]) none]) = .ok s ∧
      s.seedimage = astronomicalSignal sampleRender
        (sampleYaml 1 "nrcb5" [PointSourceCatalog (.radec [0] [0]) none]) := by
obtain ⟨s, hs⟩ := (simulateExposure_ok_iff sampleRender sampleFx
  (sampleYaml 1 "nrcb5" [PointSourceCatalog (.radec [0] [0]) none])).mpr (by decide)
exact ⟨s, hs, (seed_image_noiseless sampleRender sampleFx _ s hs).1⟩

/-- C5: every simulated exposure is produced by the pipeline stages in this
order: generate source catalogs, build the per-exposure yaml configuration
files, produce a seed image, prepare the dark-current baseline, and combine
seed image and dark into the final exposure. -/
theorem pipeline_stage_order (render : Renderer) (fx : DetectorEffects)
    (w : WorkflowInput) (outs : List SimOutput)
    (h : runWorkflow render fx w = .ok outs) :
    ∀ o ∈ outs, o.trace = [Stage.makeCatalogs, Stage.createInputs,
      Stage.makeSeed, Stage.darkPrep, Stage.obsCreate] := by
unfold runWorkflow at h
cases hm : mapExcept (simulateExposure render fx) (SimInput_create_inputs w.proposal) with
| error e =>
  rw [hm] at h
  cases h
| ok outs₀ =>
  rw [hm] at h
  simp only [Except.map] at h
  cases h
  intro o ho
  obtain ⟨o₀, ho₀, rfl⟩ := List.mem_map.mp ho
  obtain ⟨y, hy, hsim⟩ := mapExcept_ok_mem hm o₀ ho₀
  have ht := (simulateExposure_ok hsim).2.2.2
  show [Stage.makeCatalogs, Stage.createInputs] ++ o₀.trace = _
  rw [ht]
  rfl

theorem pipeline_stage_order_witness :
    ∃ outs, runWorkflow sampleRender sampleFx
      { catalog_specs := [CatalogSpec.point (.radec [0] [0]) none]
        exposure_ids := [1]
        detectors := ["nrca1"]
        instrument := "nircam"
        readout_pattern := "RAPID"
        background := zeroImage
        dark := sampleDark } = .ok outs ∧
      ∀ o ∈ outs, o.trace = [Stage.makeCatalogs, Stage.createInputs,
        Stage.makeSeed, Stage.darkPrep, Stage.obsCreate] := by
refine ⟨_, rfl, ?_⟩
exact pipeline_stage_order sampleRender sampleFx
  { catalog_specs := [CatalogSpec.point (.radec [0] [0]) none]
    exposure_ids := [1]
    detectors := ["nrca1"]
    instrument := "nircam"
    readout_pattern := "RAPID"
    background := zeroImage
    dark := sampleDark } _ rfl

/-- C7: each yaml configuration file produced by the yaml generator describes
exactly one exposure on one detector: the produced files correspond one to
one with the (exposure, detector) pairs of the proposal, and simulating a
yaml file yields the final exposure carrying exactly that file's exposure and
detector identifiers. -/
theorem one_yaml_per_exposure_detector (p : Proposal)
    (h₁ : p.exposure_ids.Nodup) (h₂ : p.detectors.Nodup) :
    ((SimInput_create_inputs p).map (fun y => (y.exposure_id, y.detector)) =
      p.exposure_ids.flatMap (fun e => p.detectors.map (fun d => (e, d)))) ∧
    ((SimInput_create_inputs p).map (fun y => (y.exposure_id, y.detector))).Nodup ∧
    (∀ (render : Renderer) (fx : DetectorEffects) (y : YamlFile) (s : SimOutput),
      simulateExposure render fx y = .ok s →
        s.final.exposure_id = y.exposure_id ∧ s.final.detector = y.detector) := by
have e : (SimInput_create_inputs p).map (fun y => (y.exposure_id, y.detector)) =
    p.exposure_ids.flatMap (fun ex => p.detectors.map (fun d => (ex, d))) := by
  simp only [SimInput_create_inputs, List.map_flatMap, List.map_map]
  rfl
refine ⟨e, ?_, ?_⟩
· rw [e]
  exact h₁.product h₂
· intro render fx y s h
  exact ⟨(simulateExposure_ok h).2.1, (simulateExposure_ok h).2.2.1⟩

theorem one_yaml_per_exposure_detector_witness :
    ((SimInput_create_inputs
        { exposure_ids := [1, 2]
          detectors := ["nrca1", "nrcb5"]
          instrument := "nircam"
          catalogs := []
          readout_pattern := "RAPID"
          background := zeroImage
          dark := sampleDark }).map (fun y => (y.exposure_id, y.detector)) =
      [(1, "nrca1"), (1, "nrcb5"), (2, "nrca1"), (2, "nrcb5")]) ∧
    ((SimInput_create_inputs
        { exposure_ids := [1, 2]
          detectors := ["nrca1", "nrcb5"]
          instrument := "nircam"
          catalogs := []
          readout_pattern := "RAPID"
          background := zeroImage
          dark := sampleDark }).map (fun y => (y.exposure_id, y.detector))).Nodup := by
have h := one_yaml_per_exposure_detector
  { exposure_ids := [1, 2]
    detectors := ["nrca1", "nrcb5"]
    instrument := "nircam"
    catalogs := []
    readout_pattern := "RAPID"
    background := zeroImage
    dark := sampleDark } (by decide) (by decide)
refine ⟨?_, h.2.1⟩
rw [h.1]
rfl

/-- C8: per-exposure simulation runs are mutually independent: each run
consumes one configuration file and writes its own output file, so running a
batch in any order (as worker processes would) yields the same output files
as running it in series, and each output file holds exactly the result of
its own run. -/
theorem parallel_runs_equal_series (render : Renderer) (fx : DetectorEffects)
    (fs : FileSystem) (ys ys' : List YamlFile) (hp : ys.Perm ys')
    (hnd : (ys.map outputName).Nodup) :
    runSeries render fx fs ys = runSeries render fx fs ys' ∧
    ∀ y ∈ ys, ∀ s : SimOutput, simulateExposure render fx y = .ok s →
      runSeries render fx fs ys (outputName y) = some s.final :=
⟨runSeries_perm render fx hp hnd fs,
 fun _ hy _ hs => runSeries_output fs hnd hy hs⟩

theorem parallel_runs_equal_series_witness :
    runSeries sampleRender sampleFx (fun _ => none)
      [sampleYaml 1 "nrca1" [], sampleYaml 2 "nrca1" []] =
    runSeries sampleRender sampleFx (fun _ => none)
      [sampleYaml 2 "nrca1" [], sampleYaml 1 "nrca1" []] :=
(parallel_runs_equal_series sampleRender sampleFx (fun _ => none)
  [sampleYaml 1 "nrca1" [], sampleYaml 2 "nrca1" []]
  [sampleYaml 2 "nrca1" [], sampleYaml 1 "nrca1" []]
  (List.Perm.swap (sampleYaml 2 "nrca1" []) (sampleYaml 1 "nrca1" []) [])
  (by decide)).1

/-- C6: the hdf5 SED container stores each source's
spectral-energy-distribution curve as a dataset keyed by the source index
value the source has in the plain-text catalog, and the disperser applies the
SED dataset with key k to the catalog source with index k. -/
theorem sed_applied_by_source_index (sed_file : SEDFile) (c : Catalog)
    (k : Nat) (sed : SEDCurve) (hnd : (sed_file.map Prod.fst).Nodup)
    (hmem : (k, sed) ∈ sed_file) (hk : k ∈ c.index_column) :
    (k, some sed) ∈ disperseSources sed_file c := by
have hmm : (k, sedForIndex sed_file k) ∈
    c.index_column.map (fun j => (j, sedForIndex sed_file j)) :=
  List.mem_map.mpr ⟨k, hk, rfl⟩
rw [sedForIndex_eq hnd hmem] at hmm
exact hmm

theorem sed_applied_by_source_index_witness :
    ((3 : Nat), some (⟨[1], [2]⟩ : SEDCurve)) ∈
      disperseSources [(3, ⟨[1], [2]⟩)]
        (PointSourceCatalog (.radec [0, 0, 0] [0, 0, 0]) none) :=
sed_applied_by_source_index [(3, ⟨[1], [2]⟩)]
  (PointSourceCatalog (.radec [0, 0, 0] [0, 0, 0]) none) 3 ⟨[1], [2]⟩
  (by decide) (List.mem_singleton.mpr rfl) (by decide)

end Mirage
